import Mathlib

/-!
Shallow embedding of the MonitorConfig_RS core (src/monitor.rs, src/vcp.rs):
monitor enumeration, the VCP (Monitor Control Command Set) protocol
operations, and the static VCP code catalog.  The opaque OS DDC/CI
transport (the `native::dxva2` foreign calls) is modelled as a record of
oracle functions: each foreign call's outcome on a given handle and
arguments.  Machine integers (u8, u32, HANDLE) are modelled as `Nat`/`Int`;
no arithmetic in the embedded code can overflow.
-/

/-- Modelled from the spec (§7), since the crate root defining
`MonitorError` is not under src/: the error taxonomy is
`MonitorNotFound(identifier)`, `VcpNotSupported`, and
`UnsupportedOperation(detail)`. -/
inductive MonitorError where
  | MonitorNotFound (identifier : String)
  | VcpNotSupported
  | UnsupportedOperation (detail : String)
deriving DecidableEq, Repr

/-- `crate::Result<T>` = `Result<T, MonitorError>`. -/
abbrev MResult (α : Type) := Except MonitorError α

/-- `VcpCodeType` from src/vcp.rs. -/
inductive VcpCodeType where
  | SetParameter
  | Momentary
deriving DecidableEq, Repr

/-- `VcpFeatureResponse` from src/vcp.rs. -/
structure VcpFeatureResponse where
  vcp_code : Nat
  current_value : Nat
  maximum_value : Nat
  code_type : VcpCodeType
deriving DecidableEq, Repr

/-- The opaque DDC/CI transport (`native::dxva2` foreign functions), as an
oracle: each function maps the handle and the call's arguments to the
outcome the OS would report.  A `none`/`false` outcome models the foreign
call returning 0 (failure); `some`/`true` models nonzero (success), with
the out-parameter values the call would write.  All calls are
single-shot and report only this boolean plus out-parameters. -/
structure Dxva2 where
  GetVCPFeatureAndVCPFeatureReply : Int → Nat → Option (Nat × Nat × Nat)
  SetVCPFeature : Int → Nat → Nat → Bool
  GetCapabilitiesStringLength : Int → Option Nat
  CapabilitiesRequestAndCapabilitiesReply : Int → Nat → Option (List Nat)
  SaveCurrentMonitorSettings : Int → Bool
  RestoreMonitorFactoryDefaults : Int → Bool
  RestoreMonitorFactoryColorDefaults : Int → Bool
  GetMonitorBrightness : Int → Option (Nat × Nat × Nat)
  SetMonitorBrightness : Int → Nat → Bool
  GetMonitorContrast : Int → Option (Nat × Nat × Nat)
  SetMonitorContrast : Int → Nat → Bool

/-- `VcpMonitor` from src/vcp.rs: wraps one native handle. -/
structure VcpMonitor where
  handle : Int
deriving DecidableEq, Repr

/-- `VcpMonitor::get_vcp_feature` (src/vcp.rs:42-71): one underlying
`GetVCPFeatureAndVCPFeatureReply` call; failure surfaces as
`VcpNotSupported`; on success the response echoes `vcp_code` and maps a
zero type discriminator to `SetParameter`, nonzero to `Momentary`. -/
def VcpMonitor.get_vcp_feature (d : Dxva2) (m : VcpMonitor) (vcp_code : Nat) :
    MResult VcpFeatureResponse :=
  match d.GetVCPFeatureAndVCPFeatureReply m.handle vcp_code with
  | none => .error .VcpNotSupported
  | some (code_type, current_value, maximum_value) =>
      .ok { vcp_code := vcp_code
            current_value := current_value
            maximum_value := maximum_value
            code_type := if code_type = 0 then .SetParameter else .Momentary }

/-- `VcpMonitor::set_vcp_feature` (src/vcp.rs:73-85). -/
def VcpMonitor.set_vcp_feature (d : Dxva2) (m : VcpMonitor) (vcp_code : Nat)
    (value : Nat) : MResult Unit :=
  if d.SetVCPFeature m.handle vcp_code value then .ok ()
  else .error (.UnsupportedOperation "SetVCPFeature failed")

/-- `VcpMonitor::scan_vcp_features` (src/vcp.rs:89-100): try every code
0..=255 in order, pushing the successful responses. -/
def VcpMonitor.scan_vcp_features (d : Dxva2) (m : VcpMonitor) :
    List VcpFeatureResponse :=
  (List.range 256).foldl
    (fun features code =>
      match m.get_vcp_feature d code with
      | .ok response => features ++ [response]
      | .error _ => features)
    []

/-- Rust `core::str::utf8_char_width`: expected length of the UTF-8
sequence headed by byte `b`, 0 for an invalid leading byte. -/
def utf8CharWidth (b : Nat) : Nat :=
  if b < 0x80 then 1
  else if b < 0xC2 then 0
  else if b < 0xE0 then 2
  else if b < 0xF0 then 3
  else if b < 0xF5 then 4
  else 0

/-- A UTF-8 continuation byte (`0x80..=0xBF`). -/
def isCont (b : Nat) : Bool := 0x80 ≤ b && b < 0xC0

/-- Valid second byte of a 3-byte UTF-8 sequence headed by `b0`
(Rust `run_utf8_validation`, 3-byte arm). -/
def validSnd3 (b0 b1 : Nat) : Bool :=
  if b0 = 0xE0 then 0xA0 ≤ b1 && b1 < 0xC0
  else if b0 = 0xED then 0x80 ≤ b1 && b1 < 0xA0
  else isCont b1

/-- Valid second byte of a 4-byte UTF-8 sequence headed by `b0`
(Rust `run_utf8_validation`, 4-byte arm). -/
def validSnd4 (b0 b1 : Nat) : Bool :=
  if b0 = 0xF0 then 0x90 ≤ b1 && b1 < 0xC0
  else if b0 = 0xF4 then 0x80 ≤ b1 && b1 < 0x90
  else isCont b1

/-- The U+FFFD replacement character. -/
def replacementChar : Char := Char.ofNat 0xFFFD

/-- Core of Rust `String::from_utf8_lossy`: decode the byte list,
replacing each maximal invalid subsequence (per `Utf8Error::error_len`)
with U+FFFD.  `fuel` bounds the recursion; each step consumes at least
one byte, so `fuel = length` suffices. -/
def utf8LossyAux : Nat → List Nat → List Char
  | 0, _ => []
  | _, [] => []
  | fuel + 1, b0 :: rest =>
    if b0 < 0x80 then Char.ofNat b0 :: utf8LossyAux fuel rest
    else if utf8CharWidth b0 = 2 then
      match rest with
      | [] => [replacementChar]
      | b1 :: rest1 =>
        if isCont b1 then
          Char.ofNat ((b0 - 0xC0) * 0x40 + (b1 - 0x80)) :: utf8LossyAux fuel rest1
        else replacementChar :: utf8LossyAux fuel rest
    else if utf8CharWidth b0 = 3 then
      match rest with
      | [] => [replacementChar]
      | b1 :: rest1 =>
        if validSnd3 b0 b1 then
          match rest1 with
          | [] => [replacementChar]
          | b2 :: rest2 =>
            if isCont b2 then
              Char.ofNat ((b0 - 0xE0) * 0x1000 + (b1 - 0x80) * 0x40 + (b2 - 0x80))
                :: utf8LossyAux fuel rest2
            else replacementChar :: utf8LossyAux fuel rest1
        else replacementChar :: utf8LossyAux fuel rest
    else if utf8CharWidth b0 = 4 then
      match rest with
      | [] => [replacementChar]
      | b1 :: rest1 =>
        if validSnd4 b0 b1 then
          match rest1 with
          | [] => [replacementChar]
          | b2 :: rest2 =>
            if isCont b2 then
              match rest2 with
              | [] => [replacementChar]
              | b3 :: rest3 =>
                if isCont b3 then
                  Char.ofNat ((b0 - 0xF0) * 0x40000 + (b1 - 0x80) * 0x1000
                      + (b2 - 0x80) * 0x40 + (b3 - 0x80))
                    :: utf8LossyAux fuel rest3
                else replacementChar :: utf8LossyAux fuel rest2
            else replacementChar :: utf8LossyAux fuel rest1
        else replacementChar :: utf8LossyAux fuel rest
    else replacementChar :: utf8LossyAux fuel rest

/-- Rust `String::from_utf8_lossy` on a byte list. -/
def from_utf8_lossy (bytes : List Nat) : String :=
  String.mk (utf8LossyAux bytes.length bytes)

/-- `VcpMonitor::get_capabilities` (src/vcp.rs:102-131): two-phase
protocol — query the buffer length, then fill a buffer of that length;
either call failing surfaces as `UnsupportedOperation`; on success the
buffer is truncated at its first null byte and decoded lossily. -/
def VcpMonitor.get_capabilities (d : Dxva2) (m : VcpMonitor) : MResult String :=
  match d.GetCapabilitiesStringLength m.handle with
  | none => .error (.UnsupportedOperation "GetCapabilitiesStringLength failed")
  | some length =>
    match d.CapabilitiesRequestAndCapabilitiesReply m.handle length with
    | none =>
        .error (.UnsupportedOperation "CapabilitiesRequestAndCapabilitiesReply failed")
    | some buffer =>
      let e := (buffer.findIdx? (· == 0)).getD buffer.length
      .ok (from_utf8_lossy (buffer.take e))

/-- `VcpMonitor::save_settings` (src/vcp.rs:133-145). -/
def VcpMonitor.save_settings (d : Dxva2) (m : VcpMonitor) : MResult Unit :=
  if d.SaveCurrentMonitorSettings m.handle then .ok ()
  else .error (.UnsupportedOperation "SaveCurrentMonitorSettings failed")

/-- `VcpMonitor::restore_factory_defaults` (src/vcp.rs:147-159). -/
def VcpMonitor.restore_factory_defaults (d : Dxva2) (m : VcpMonitor) : MResult Unit :=
  if d.RestoreMonitorFactoryDefaults m.handle then .ok ()
  else .error (.UnsupportedOperation "RestoreMonitorFactoryDefaults failed")

/-- `VcpMonitor::restore_factory_color_defaults` (src/vcp.rs:161-173). -/
def VcpMonitor.restore_factory_color_defaults (d : Dxva2) (m : VcpMonitor) :
    MResult Unit :=
  if d.RestoreMonitorFactoryColorDefaults m.handle then .ok ()
  else .error (.UnsupportedOperation "RestoreMonitorFactoryColorDefaults failed")

/-- `BrightnessInfo` from src/monitor.rs. -/
structure BrightnessInfo where
  minimum : Nat
  current : Nat
  maximum : Nat
deriving DecidableEq, Repr

/-- `ContrastInfo` from src/monitor.rs. -/
structure ContrastInfo where
  minimum : Nat
  current : Nat
  maximum : Nat
deriving DecidableEq, Repr

/-- `MonitorInfo` from src/monitor.rs. -/
structure MonitorInfo where
  device_name : String
  friendly_name : String
  instance_name : String
  is_primary : Bool
deriving DecidableEq, Repr

/-- `PhysicalMonitor` from src/monitor.rs: the native handle plus the
descriptive metadata captured at construction. -/
structure PhysicalMonitor where
  handle : Int
  info : MonitorInfo
deriving DecidableEq, Repr

/-- `native::PHYSICAL_MONITOR`: the per-endpoint record the OS returns
for one output — the physical monitor handle and its description text. -/
structure PHYSICAL_MONITOR where
  h_physical_monitor : Int
  description : String
deriving DecidableEq, Repr

/-- The OS display subsystem as seen by src/monitor.rs, as an oracle:
the outputs the OS topology query reports, each output's physical
monitor endpoints (`native::get_physical_monitors`), and each output's
display metadata (`native::get_monitor_info`, of which only the `dwFlags`
word is consumed by the code under src/). -/
structure Native where
  osOutputs : List Int
  get_physical_monitors : Int → MResult (List PHYSICAL_MONITOR)
  get_monitor_info : Int → MResult Nat

/-- Modelled from the spec: `native::MonitorEnumerator::enumerate` lives
in src/native.rs, which is not under src/.  Per §4.1, the topology query
fails with `MonitorNotFound` when the OS reports zero outputs, and
otherwise yields the outputs. -/
def MonitorEnumerator.enumerate (n : Native) : MResult (List Int) :=
  if n.osOutputs.isEmpty then .error (.MonitorNotFound "No monitors found")
  else .ok n.osOutputs

/-- `PhysicalMonitor::new` (src/monitor.rs:41-59): query the output's
display metadata (propagating its failure), then bind the endpoint
handle with the metadata; `device_name` is formatted from the output
handle, `is_primary` is bit 0 of the metadata flags. -/
def PhysicalMonitor.new (n : Native) (hmonitor : Int) (pm : PHYSICAL_MONITOR) :
    MResult PhysicalMonitor :=
  match n.get_monitor_info hmonitor with
  | .error e => .error e
  | .ok dwFlags =>
      .ok { handle := pm.h_physical_monitor
            info := { device_name := "DISPLAY_" ++ toString hmonitor
                      friendly_name := pm.description
                      instance_name := ""
                      is_primary := dwFlags &&& 1 ≠ 0 } }

/-- One output's pass of the loop body of `enumerate_monitors`: fold the
output's endpoints, pushing each successfully constructed monitor and
logging a warning for each construction failure. -/
def enumOutput (n : Native) (hmonitor : Int)
    (acc : List PhysicalMonitor × List MonitorError) (pms : List PHYSICAL_MONITOR) :
    List PhysicalMonitor × List MonitorError :=
  pms.foldl
    (fun acc pm =>
      match PhysicalMonitor.new n hmonitor pm with
      | .ok monitor => (acc.1 ++ [monitor], acc.2)
      | .error e => (acc.1, acc.2 ++ [e]))
    acc

/-- The loop of `enumerate_monitors` over the outputs; the second
component of the state collects the warnings written to stderr.  A
failing `get_physical_monitors` call aborts the whole enumeration (the
`?` in the source), keeping the warnings already logged. -/
def enumLoop (n : Native) :
    List Int → List PhysicalMonitor → List MonitorError →
    MResult (List PhysicalMonitor) × List MonitorError
  | [], monitors, warns => (.ok monitors, warns)
  | hmonitor :: rest, monitors, warns =>
    match n.get_physical_monitors hmonitor with
    | .error e => (.error e, warns)
    | .ok pms =>
      let acc := enumOutput n hmonitor (monitors, warns) pms
      enumLoop n rest acc.1 acc.2

/-- `enumerate_monitors` (src/monitor.rs:152-168), paired with the list
of warnings logged during the run. -/
def enumerate_monitors (n : Native) :
    MResult (List PhysicalMonitor) × List MonitorError :=
  match MonitorEnumerator.enumerate n with
  | .error e => (.error e, [])
  | .ok outputs => enumLoop n outputs [] []

/-- `find_monitor` (src/monitor.rs:170-180): enumerate, then take the
first monitor whose device name or friendly name equals the argument. -/
def find_monitor (n : Native) (device_name : String) : MResult PhysicalMonitor :=
  match (enumerate_monitors n).1 with
  | .error e => .error e
  | .ok monitors =>
    match monitors.find? (fun m =>
        m.info.device_name == device_name || m.info.friendly_name == device_name) with
    | some m => .ok m
    | none => .error (.MonitorNotFound device_name)

/-- `get_primary_monitor` (src/monitor.rs:182-189). -/
def get_primary_monitor (n : Native) : MResult PhysicalMonitor :=
  match (enumerate_monitors n).1 with
  | .error e => .error e
  | .ok monitors =>
    match monitors.find? (fun m => m.info.is_primary) with
    | some m => .ok m
    | none => .error (.MonitorNotFound "Primary monitor")

/-- `Monitor::get_brightness` for `PhysicalMonitor` (src/monitor.rs:67-88). -/
def PhysicalMonitor.get_brightness (d : Dxva2) (m : PhysicalMonitor) :
    MResult BrightnessInfo :=
  match d.GetMonitorBrightness m.handle with
  | none => .error (.UnsupportedOperation "GetMonitorBrightness failed")
  | some (mn, cur, mx) => .ok { minimum := mn, current := cur, maximum := mx }

/-- `Monitor::set_brightness` for `PhysicalMonitor` (src/monitor.rs:90-102). -/
def PhysicalMonitor.set_brightness (d : Dxva2) (m : PhysicalMonitor)
    (level : Nat) : MResult Unit :=
  if d.SetMonitorBrightness m.handle level then .ok ()
  else .error (.UnsupportedOperation "SetMonitorBrightness failed")

/-- `Monitor::get_contrast` for `PhysicalMonitor` (src/monitor.rs:104-125). -/
def PhysicalMonitor.get_contrast (d : Dxva2) (m : PhysicalMonitor) :
    MResult ContrastInfo :=
  match d.GetMonitorContrast m.handle with
  | none => .error (.UnsupportedOperation "GetMonitorContrast failed")
  | some (mn, cur, mx) => .ok { minimum := mn, current := cur, maximum := mx }

/-- `Monitor::set_contrast` for `PhysicalMonitor` (src/monitor.rs:127-139). -/
def PhysicalMonitor.set_contrast (d : Dxva2) (m : PhysicalMonitor)
    (level : Nat) : MResult Unit :=
  if d.SetMonitorContrast m.handle level then .ok ()
  else .error (.UnsupportedOperation "SetMonitorContrast failed")

/-- `VcpFeatureInfo` from src/vcp.rs: one static catalog entry. -/
structure VcpFeatureInfo where
  code : Nat
  name : String
  description : String
deriving DecidableEq, Repr

/-- Entries 1-46 of `KNOWN_VCP_CODES` (src/vcp.rs:183-1105), in source order. -/
def knownVcpCodes0 : List VcpFeatureInfo := [
  ⟨0x00, "Code Page", "Returns the Code Page ID number Byte SL."⟩,
  ⟨0x01, "Degauss", "Causes a CRT display to perform a degauss cycle."⟩,
  ⟨0x02, "New Control Value", "Indicates that a displays MCCS VCP Code register value has changed."⟩,
  ⟨0x03, "Soft Controls", "Allows applications running on the host to use control buttons on the display."⟩,
  ⟨0x04, "Restore Factory Defaults", "Restore all factory presets including luminance / contrast, geometry, color and TV defaults."⟩,
  ⟨0x05, "Restore Factory Luminance / Contrast Defaults", "Restores factory defaults for luminance and contrast adjustments."⟩,
  ⟨0x06, "Restore Factory Geometry Defaults", "Restore factory defaults for geometry adjustments."⟩,
  ⟨0x08, "Restore Factory Color Defaults", "Restore factory defaults for color settings."⟩,
  ⟨0x0A, "Restore Factory TV Defaults", "Restore factory defaults for TV functions."⟩,
  ⟨0x0B, "User Color Temperature Increment", "Sets the minimum increment in which the display can adjust the color temperature."⟩,
  ⟨0x0C, "User Color Temperature", "Multiplier of the value set in 0x0B"⟩,
  ⟨0x0E, "Clock", "Video sampling clock frequency"⟩,
  ⟨0x10, "Luminance", "Luminance of the image (Brightness control)."⟩,
  ⟨0x11, "Flesh Tone Enhancement", "This control allows for selection of contrast enhancement algorithms using a bitmask."⟩,
  ⟨0x12, "Contrast", "Contrast of the image."⟩,
  ⟨0x13, "Backlight Control", "This VCP code has been deprecated."⟩,
  ⟨0x14, "Select Color Preset", "Select a specified color temperature."⟩,
  ⟨0x16, "Video Gain (Drive): Red", "Sets the luminance of red pixels."⟩,
  ⟨0x17, "User Color Vision Compensation", "Sets the degree of compensation. Intended to help people that see red colors poorly."⟩,
  ⟨0x18, "Video Gain (Drive): Green", "Sets the luminance of green pixels."⟩,
  ⟨0x1A, "Video Gain (Drive): Blue", "Sets the luminance of blue pixels."⟩,
  ⟨0x1C, "Focus", "Sets the focus of the image."⟩,
  ⟨0x1E, "Auto Setup", "Perform auto setup function (H/V position, clock, clock phase, A/D converter, etc.)"⟩,
  ⟨0x1F, "Auto Color Setup", "Perform auto color setup function (R / G / B gain and offset, A/D setup, etc.)"⟩,
  ⟨0x20, "Horizontal Position (Phase)", "Moves the image left and right on the display."⟩,
  ⟨0x22, "Horizontal Size", "Sets the width of the image."⟩,
  ⟨0x24, "Horizontal Pincushion", "Makes the left/right sides of the image more/less convex."⟩,
  ⟨0x26, "Horizontal Pincushion Balance", "Increasing (decreasing) this value will move the center section of the image toward the right (left) side of the display."⟩,
  ⟨0x28, "Horizontal Convergence R/B", "Increasing (decreasing) this value will shift the red pixels to the right (left) across the image and the blue pixels left (right) across the image with respect to the green pixels."⟩,
  ⟨0x29, "Horizontal Convergence M/G", "Increasing (decreasing) this value will shift the magenta pixels to the right (left) across the image and the green pixels left (right) across the image with respect to the magenta pixels"⟩,
  ⟨0x2A, "Horizontal Linearity", "Increasing (decreasing) this value will increase (decrease) the density of pixels in the image center"⟩,
  ⟨0x2C, "Horizontal Linearity Balance", "Increasing (decreasing) this value shifts the density of pixels from the left (right) side to the right (left) side of the image."⟩,
  ⟨0x2E, "Gray Scale Expansion", "Expands the gray scale either in the near white region or the near black region (or both)."⟩,
  ⟨0x30, "Vertical Position (Phase)", "Increasing (decreasing) this value moves the image toward the top (bottom) edge of the display."⟩,
  ⟨0x32, "Vertical Size", "Increasing (decreasing) this value will increase (decrease) the height of the image"⟩,
  ⟨0x34, "Vertical Pincushion", "Increasing (decreasing) this value will cause the top and bottom edges of the image to become more (less) convex."⟩,
  ⟨0x36, "Vertical Pincushion Balance", "Increasing (decreasing) this value will move the center section of the image toward the top (bottom) edge of the display."⟩,
  ⟨0x38, "Vertical Convergence R/B", "Increasing (decreasing) this value shifts the red pixels up (down) across the image and the blue pixels down (up) across the image with respect to the green pixels."⟩,
  ⟨0x39, "Vertical Convergence M/G", "Increasing (decreasing) this value will shift the magenta pixels up (down) across the image and the green pixels down (up) across the image with respect to the magenta pixels"⟩,
  ⟨0x3A, "Vertical Linearity", "Increasing (decreasing) this value will increase (decrease) the density of scan lines in the image center."⟩,
  ⟨0x3C, "Vertical Linearity Balance", "Increasing (decreasing) this value shifts the density of scan lines from the top (bottom) end to the bottom (top) end of the image"⟩,
  ⟨0x3E, "Clock Phase", "Increasing (decreasing) this value will increase (decrease) the phase shift of the sampling clock."⟩,
  ⟨0x40, "Horizontal Parallelogram", "Increasing (decreasing) this value shifts the top section of the image to the right (left) with respect to the bottom section of the image"⟩,
  ⟨0x41, "Vertical Parallelogram", "Increasing (decreasing) this value shifts the top section of the image to the right (left) with respect to the bottom section of the image."⟩,
  ⟨0x42, "Horizontal Keystone", "Increasing (decreasing) this value will increase (decrease) the horizontal size at the top of the image with respect to the horizontal size at the bottom of the image"⟩,
  ⟨0x43, "Vertical Keystone", "Increasing (decreasing) this value will increase (decrease) the vertical size at the left of the image with respect to the vertical size at the right of the image"⟩]

/-- Entries 47-92 of `KNOWN_VCP_CODES`, in source order. -/
def knownVcpCodes1 : List VcpFeatureInfo := [
  ⟨0x44, "Rotation", "Increasing (decreasing) this value rotates the image (counter) clockwise about the center point of the screen."⟩,
  ⟨0x46, "Top Corner Flare", "Increasing (decreasing) this value will increase (decrease) the distance between the left and right sides at the top of the image."⟩,
  ⟨0x48, "Top Corner Hook", "Increasing (decreasing) this value moves the top of the image to the right (left)."⟩,
  ⟨0x4A, "Bottom Corner Flare", "Increasing (decreasing) this value will increase (decrease) the distance between the left and right sides at the bottom of the image"⟩,
  ⟨0x4C, "Bottom Corner Hook", "Increasing (decreasing) this value moves the bottom of the image to the right (left)."⟩,
  ⟨0x52, "Active Control", "All VCP Codes that have new values must be added to this FIFO in the order they occur and VCP 02h must be set to = 02h when this FIFO is NOT empty."⟩,
  ⟨0x54, "Performance Preservation", "This command provides the capability to control up to 16 features aimed at maintaining the performance of a display."⟩,
  ⟨0x56, "Horizontal Moir", "Increasing (decreasing) this value controls the horizontal picture moir cancellation."⟩,
  ⟨0x58, "Vertical Moir", "Increasing (decreasing) this value controls the vertical picture moir cancellation."⟩,
  ⟨0x59, "6 Axis Saturation Control: Red", "Adjust the red saturation for 6-axis color."⟩,
  ⟨0x5A, "6 Axis Saturation Control: Yellow", "Adjust the yellow saturation for 6-axis color."⟩,
  ⟨0x5B, "6 Axis Saturation Control: Green", "Adjust the green saturation for 6-axis color."⟩,
  ⟨0x5C, "6 Axis Saturation Control: Cyan", "Adjust the cyan saturation for 6-axis color."⟩,
  ⟨0x5D, "6 Axis Saturation Control: Blue", "Adjust the blue saturation for 6-axis color."⟩,
  ⟨0x5E, "6 Axis Saturation Control: Magenta", "Adjust the magenta saturation for 6-axis color."⟩,
  ⟨0x60, "Input Select", "Adjusts the active input on the display."⟩,
  ⟨0x62, "Audio: Speaker Volume", "Allows the volume to be adjusted."⟩,
  ⟨0x63, "Speaker Select", "Selects the active speakers on the display"⟩,
  ⟨0x64, "Audio: Microphone Volume", "Sets the microphone gain."⟩,
  ⟨0x65, "Audio: Jack Connection Status", "This bitmask allows the source to determine the capabilities as well as the current configuration of speakers/lineout connected to a display, or active in an audio only device"⟩,
  ⟨0x66, "Ambient Light Sensor", "Used to control the action of an ambient light sensor"⟩,
  ⟨0x6B, "Backlight Level: White", "Sets the White backlight level of the image."⟩,
  ⟨0x6C, "Video Black Level: Red", "Sets the black level of the red video."⟩,
  ⟨0x6D, "Backlight Level: Red", "Sets the Red backlight level of the image."⟩,
  ⟨0x6E, "Video Black Level: Green", "Sets the black level of the green video."⟩,
  ⟨0x6F, "Backlight Level: Green", "Sets the Green backlight level of the image."⟩,
  ⟨0x70, "Video Black Level: Blue", "Sets the black level of the blue video"⟩,
  ⟨0x71, "Backlight Level: Blue", "Sets the Blue backlight level of the image."⟩,
  ⟨0x72, "Gamma", "This VCP code has two distinct modes, it may be used to select an absolute (within a defined tolerance) value for gamma, or it may be used to select a value of gamma relative to the default gamma of the display"⟩,
  ⟨0x73, "LUT Size", "Provides the size (number of entries and number of bits / entry) for the Red / Green and Blue LUT in the display"⟩,
  ⟨0x74, "Single Point LUT Operation", "Allows a single point within a displays color LUT (look up table) to be loaded."⟩,
  ⟨0x75, "Block LUT Operation", "Provides an efficient method for loading multiple values into a displays LUT."⟩,
  ⟨0x76, "Remote Procedure Call", "Allows initiation of a routine / macro resident in the display."⟩,
  ⟨0x78, "Display Identification on Data Operation", "This command allows a selected block (128 bytes) of Display Identification Data (e.g., EDID or DisplayID) to be read."⟩,
  ⟨0x7C, "Adjust Zoom", "Sets the zoom function of the projection lens."⟩,
  ⟨0x82, "Horizontal Mirror (Flip)", "This VCP code allows the image to be mirrored horizontally."⟩,
  ⟨0x84, "Vertical Mirror (Flip)", "This VCP code allows the image to be mirrored vertically."⟩,
  ⟨0x86, "Display Scaling", "Changing this value will affect the scaling (input versus output) function of the display. NOTE: This VCP code can be used to scale up or down to the maximum screen size."⟩,
  ⟨0x87, "Sharpness", "Allows one of a range of algorithms to be selected to suit the type of image being displayed and/or personal preference."⟩,
  ⟨0x88, "Velocity Scan Modulation", "Increasing (decreasing) this value will increase (decrease) the velocity modulation of the horizontal scan as a function of a change in the luminance level."⟩,
  ⟨0x8A, "Color Saturation", "Increasing this control increases the amplitude of the color difference components of the video signal."⟩,
  ⟨0x8B, "TVChannel Up / Down", "Used to increment / decrement between TV-channels, the exact behavior is implementation specific (e.g. increment / decrement to next numeric channel or increment / decrement to next channel with a signal)."⟩,
  ⟨0x8C, "TV-Sharpness", "Increasing this control increases the amplitude of the high frequency components of the video signal."⟩,
  ⟨0x8D, "Audio Mute / Screen Blank", "Provides for the audio to be muted or un-muted."⟩,
  ⟨0x8E, "TV-Contrast", "Increasing (decreasing) this control increases (decreases) the ratio between whites and blacks in the video."⟩,
  ⟨0x8F, "Audio Treble", "Allows control of the high frequency component of the audio."⟩]

/-- Entries 93-138 of `KNOWN_VCP_CODES`, in source order. -/
def knownVcpCodes2 : List VcpFeatureInfo := [
  ⟨0x90, "Hue", "Also known as tint Increasing (decreasing) this control increases (decreases) the wavelength of the color component of the video signal."⟩,
  ⟨0x91, "Audio Bass", "Allows control of the low frequency component of the audio."⟩,
  ⟨0x92, "TV-Black Level / Luminance", "Increasing this control increases the black level of the video, resulting in an increase of the luminance level of the video."⟩,
  ⟨0x93, "Audio Balance L / R", "This control affects the left right balance of audio output. Increasing (decreasing) the value will cause the balance to move to the right (left)."⟩,
  ⟨0x94, "Audio Processor Mode", "This control allows one of several audio processing modes to be selected."⟩,
  ⟨0x95, "Window Position (TL_X)", "Defines the top left X pixel of an area of the image. Specified in coordinates of incoming image before any scaling etc. in the display."⟩,
  ⟨0x96, "Window Position (TL_Y)", "Defines the top left Y pixel of an area of the image. Specified in coordinates of incoming image before any scaling etc. in the display."⟩,
  ⟨0x97, "Window Position (BR_X)", "Defines the bottom right X pixel of an area of the image. Specified in co-ordinates of the incoming image before any scaling etc. in the display."⟩,
  ⟨0x98, "Window Position (BR_Y)", "Defines the bottom right Y pixel of an area of the image. Specified in co-ordinates of the incoming image before any processing (e.g. scaling) in the display"⟩,
  ⟨0x9A, "Window Background", "Changes the contrast ratio between the area of the window and the rest of the desktop"⟩,
  ⟨0x9B, "6 Axis Hue Control: Red", "Adjust the red hue for 6-axis color"⟩,
  ⟨0x9C, "6 Axis Hue Control: Yellow", "Adjust the yellow hue for 6-axis color"⟩,
  ⟨0x9D, "6 Axis Hue Control: Green", "Adjust the green hue for 6-axis color"⟩,
  ⟨0x9E, "6 Axis Hue Control: Cyan", "Adjust the cyan hue for 6-axis color"⟩,
  ⟨0x9F, "6 Axis Hue Control: Blue", "Adjust the blue hue for 6-axis color"⟩,
  ⟨0xA0, "6 Axis Hue Control: Magenta", "Adjust the magenta hue for 6-axis color"⟩,
  ⟨0xA2, "Auto Setup On / Off", "Turn on / off the auto setup function (periodic or event driven)"⟩,
  ⟨0xA4, "Window Mask Control", "Data size: Write / Read = 10 bytes This code has two sets of functions:"⟩,
  ⟨0xA5, "Window Select", "Change the selected window (as defined by 95h 98h)."⟩,
  ⟨0xA6, "Window Size", "Increasing (decreasing) this value will increase (decrease) the size of the window called out by VCP A5"⟩,
  ⟨0xA7, "Window Transparency", "Increasing (decreasing) this value will increase (decrease) the transparency of the window called out by A5"⟩,
  ⟨0xAA, "Screen Orientation", "Indicates the orientation of the screen"⟩,
  ⟨0xAC, "Horizontal Frequency", "Horizontal synchronization signal frequency in Hz as determined by the display."⟩,
  ⟨0xAE, "Vertical Frequency", "Vertical synchronization signal frequency in 0.01Hz as determined by the display"⟩,
  ⟨0xB0, "Settings", "Store/Restore the user saved values for current mode"⟩,
  ⟨0xB2, "Flat Panel Sub-Pixel Layout", "Indicates the type of LCD sub-pixel structure"⟩,
  ⟨0xB4, "Source Timing Mode", "Indicates the timing mode being sent by the host."⟩,
  ⟨0xB5, "Source Color Coding", "Allows the host to specify the color coding method that is being used."⟩,
  ⟨0xB6, "Display Technology Type", "Indicates the base technology type."⟩,
  ⟨0xB7, "Monitor Status", "Video mode and status of a DPVL capable monitor."⟩,
  ⟨0xB8, "Packet Count", "Counter for the DPVL packets received (valid and invalid ones). This value counts from 00 00h to FF FFh and then rolls over to 00 00h. The host can reset the value to 00 00h"⟩,
  ⟨0xB9, "Monitor X Origin", "The X origin of the monitor in the virtual screen. The support of this command indicates the multi-display support of the display. If a display supports this command, the monitor must also support Monitor Y Origin command"⟩,
  ⟨0xBA, "Monitor Y Origin", "The Y origin of the display in the virtual screen. The support of this command indicates the multi-display support of the display. If a display supports this command, the monitor must also support Monitor X Origin command"⟩,
  ⟨0xBB, "Header Error Count", "Error Counter for the DPVL header. The counter value saturates at FF FFh. Host can reset to 00 00h."⟩,
  ⟨0xBC, "Body CRC Error Count", "CRC error Counter for the DPVL body (containing video data). The counter value saturates at FF FFh. The Host can reset to 00 00h"⟩,
  ⟨0xBD, "Client ID", "Assigned identification number for the monitor. Valid range is 0000h to FF FEh FF FFh is reserved for broadcast."⟩,
  ⟨0xBE, "Link Control", "Indicates the status of the DVI link"⟩,
  ⟨0xC0, "Display Usage Time", "Returns the current value (in hours) of active power on time accumulated by the display in the ML, SH and SL bytes"⟩,
  ⟨0xC2, "Display Descriptor Length", "Returns the length (in bytes) of non-volatile storage in the display available for writing a display descriptor the maximum descriptor length is 256 bytes"⟩,
  ⟨0xC3, "Transmit Display Descriptor", "Allows a display descriptor (up to maximum length defined by the display (see code C2h) to be written (read) to (from) nonvolatile storage in the display."⟩,
  ⟨0xC4, "Enable Display of Display Descriptor", "If enabled, the display descriptor written to the display using VCP code C3h must be displayed when no video is being received."⟩,
  ⟨0xC6, "Application Enable Key", "A 2-byte value used to allow an application to only operate with known products. The display manufacturer and application author agree to a code such that application will only run when a valid code is present in the display."⟩,
  ⟨0xC7, "Display Enable Key", "This VCP code has been deprecated. It must NOT be implemented in new designs!"⟩,
  ⟨0xC8, "Display Controller ID", "Contains the ID for the display controller. 1st byte is parsed as the OEM ID, next 3 bytes is a unique chip ID assigned by the OEM."⟩,
  ⟨0xC9, "Display Firmware Level", "Contains the firmware version of the display. 1st byte is parsed as the revision number. 2nd byte is the major version. 3rd and 4th are unused."⟩,
  ⟨0xCA, "OSD / Button Control", "Sets and indicates the current operational state of the display OSD and buttons"⟩]

/-- Entries 139-184 of `KNOWN_VCP_CODES`, in source order. -/
def knownVcpCodes3 : List VcpFeatureInfo := [
  ⟨0xCC, "OSD Language", "Allows the host to select the display OSD language."⟩,
  ⟨0xCD, "Status Indicators (Host)", "This command provides the capability to control up to 16 LED (or similar) indicators which may be used to indicate aspects of the host system status"⟩,
  ⟨0xCE, "Auxiliary Display Size", "An auxiliary display is a small alphanumeric display associated with the primary display and able to be accessed via the primary display"⟩,
  ⟨0xCF, "Auxiliary Display Data", "An auxiliary display is a small alphanumeric display associated with the primary display and able to be accessed via the primary display."⟩,
  ⟨0xD0, "Output Select", "A one byte write/read (Byte 0), allows the host to set (write) one and only one source to output and identify (read) the current output setting"⟩,
  ⟨0xD2, "Asset Tag", "This VCP codes allows an Asset Tag to be written to a display or read from a display. It also allows for control by the display manufacturer of which applications may write an asset tag."⟩,
  ⟨0xD4, "Stereo Video Mode", "Used to select the video mode with respect to 2D or 3D video."⟩,
  ⟨0xD6, "Power Mode", "Controls the power mode of the display. 0 = Reserved, 1 = On, 2 = Standby, 3 = Suspend, 4 and 5 = Off"⟩,
  ⟨0xD7, "Auxiliary Power Output", "Controls output of an auxiliary power output from a display to a host device."⟩,
  ⟨0xDA, "Scan Mode", "Controls the scan characteristics."⟩,
  ⟨0xDB, "Image Mode", "Controls aspects of the displayed image"⟩,
  ⟨0xDC, "Display Application", "Select an image preset like Standard, Movie, Games, etc."⟩,
  ⟨0xDE, "Scratch Pad", "Provides 2 bytes of volatile storage for use of software application(s) leading to more efficient operation."⟩,
  ⟨0xDF, "VCP Version", "Defines the version number of the MCCS standard recognized by the display."⟩,
  ⟨0xE0, "OEM specific", "Manufacturer-specific VCP code"⟩,
  ⟨0xE1, "OEM specific", "Manufacturer-specific VCP code"⟩,
  ⟨0xE2, "OEM specific", "Manufacturer-specific VCP code"⟩,
  ⟨0xE3, "OEM specific", "Manufacturer-specific VCP code"⟩,
  ⟨0xE4, "OEM specific", "Manufacturer-specific VCP code"⟩,
  ⟨0xE5, "OEM specific", "Manufacturer-specific VCP code"⟩,
  ⟨0xE6, "OEM specific", "Manufacturer-specific VCP code"⟩,
  ⟨0xE7, "OEM specific", "Manufacturer-specific VCP code"⟩,
  ⟨0xE8, "OEM specific", "Manufacturer-specific VCP code"⟩,
  ⟨0xE9, "OEM specific", "Manufacturer-specific VCP code"⟩,
  ⟨0xEA, "OEM specific", "Manufacturer-specific VCP code"⟩,
  ⟨0xEB, "OEM specific", "Manufacturer-specific VCP code"⟩,
  ⟨0xEC, "OEM specific", "Manufacturer-specific VCP code"⟩,
  ⟨0xED, "OEM specific", "Manufacturer-specific VCP code"⟩,
  ⟨0xEE, "OEM specific", "Manufacturer-specific VCP code"⟩,
  ⟨0xEF, "OEM specific", "Manufacturer-specific VCP code"⟩,
  ⟨0xF0, "OEM specific", "Manufacturer-specific VCP code"⟩,
  ⟨0xF1, "OEM specific", "Manufacturer-specific VCP code"⟩,
  ⟨0xF2, "OEM specific", "Manufacturer-specific VCP code"⟩,
  ⟨0xF3, "OEM specific", "Manufacturer-specific VCP code"⟩,
  ⟨0xF4, "OEM specific", "Manufacturer-specific VCP code"⟩,
  ⟨0xF5, "OEM specific", "Manufacturer-specific VCP code"⟩,
  ⟨0xF6, "OEM specific", "Manufacturer-specific VCP code"⟩,
  ⟨0xF7, "OEM specific", "Manufacturer-specific VCP code"⟩,
  ⟨0xF8, "OEM specific", "Manufacturer-specific VCP code"⟩,
  ⟨0xF9, "OEM specific", "Manufacturer-specific VCP code"⟩,
  ⟨0xFA, "OEM specific", "Manufacturer-specific VCP code"⟩,
  ⟨0xFB, "OEM specific", "Manufacturer-specific VCP code"⟩,
  ⟨0xFC, "OEM specific", "Manufacturer-specific VCP code"⟩,
  ⟨0xFD, "OEM specific", "Manufacturer-specific VCP code"⟩,
  ⟨0xFE, "OEM specific", "Manufacturer-specific VCP code"⟩,
  ⟨0xFF, "OEM specific", "Manufacturer-specific VCP code"⟩]

/-- `KNOWN_VCP_CODES` (src/vcp.rs:183-1105): the static catalog, the
concatenation of its four quarters in source order. -/
def KNOWN_VCP_CODES : List VcpFeatureInfo :=
  knownVcpCodes0 ++ knownVcpCodes1 ++ knownVcpCodes2 ++ knownVcpCodes3

/-- `get_vcp_code_info` (src/vcp.rs:1107-1109): linear scan of the
catalog for the first entry with the given code. -/
def get_vcp_code_info (code : Nat) : Option VcpFeatureInfo :=
  KNOWN_VCP_CODES.find? (fun info => info.code == code)

/-- The protocol operations a caller can issue against one monitor
handle (the `&self` methods of src/monitor.rs and src/vcp.rs). -/
inductive ProtocolOp where
  | getFeature (code : Nat)
  | setFeature (code value : Nat)
  | scanAll
  | capabilities
  | saveSettings
  | restoreDefaults
  | restoreColorDefaults
  | getBrightness
  | setBrightness (level : Nat)
  | getContrast
  | setContrast (level : Nat)
deriving DecidableEq, Repr

/-- State-passing reading of one protocol call on a `PhysicalMonitor`:
evaluate the operation (the VCP operations go through a `VcpMonitor`
wrapping the raw handle, as cli.rs does) and return the receiver that
the next call sees.  Every method in the source takes `&self` and its
body never writes a field of `self`, so each arm returns the receiver
it was given. -/
def runOp (d : Dxva2) (m : PhysicalMonitor) : ProtocolOp → PhysicalMonitor
  | .getFeature code =>
      let _r := (VcpMonitor.mk m.handle).get_vcp_feature d code
      m
  | .setFeature code value =>
      let _r := (VcpMonitor.mk m.handle).set_vcp_feature d code value
      m
  | .scanAll =>
      let _r := (VcpMonitor.mk m.handle).scan_vcp_features d
      m
  | .capabilities =>
      let _r := (VcpMonitor.mk m.handle).get_capabilities d
      m
  | .saveSettings =>
      let _r := (VcpMonitor.mk m.handle).save_settings d
      m
  | .restoreDefaults =>
      let _r := (VcpMonitor.mk m.handle).restore_factory_defaults d
      m
  | .restoreColorDefaults =>
      let _r := (VcpMonitor.mk m.handle).restore_factory_color_defaults d
      m
  | .getBrightness =>
      let _r := m.get_brightness d
      m
  | .setBrightness level =>
      let _r := m.set_brightness d level
      m
  | .getContrast =>
      let _r := m.get_contrast d
      m
  | .setContrast level =>
      let _r := m.set_contrast d level
      m

/-- Run a sequence of protocol calls on a monitor, threading the
receiver state through. -/
def runOps (d : Dxva2) (ops : List ProtocolOp) (m : PhysicalMonitor) :
    PhysicalMonitor :=
  ops.foldl (runOp d) m

/-! ## Concrete stub transports and topologies used by the witnesses -/

/-- A stub transport in which every call succeeds: the feature query
reports type discriminator 0, current 50, maximum 100 for every code
(the spec's `get_feature(0x10)` scenario), the capability length is 10
and the buffer comes back as bytes `ABC` followed by seven nulls, and
brightness/contrast report 0/30/100. -/
def stubOk : Dxva2 where
  GetVCPFeatureAndVCPFeatureReply := fun _ _ => some (0, 50, 100)
  SetVCPFeature := fun _ _ _ => true
  GetCapabilitiesStringLength := fun _ => some 10
  CapabilitiesRequestAndCapabilitiesReply := fun _ _ =>
    some [65, 66, 67, 0, 0, 0, 0, 0, 0, 0]
  SaveCurrentMonitorSettings := fun _ => true
  RestoreMonitorFactoryDefaults := fun _ => true
  RestoreMonitorFactoryColorDefaults := fun _ => true
  GetMonitorBrightness := fun _ => some (0, 30, 100)
  SetMonitorBrightness := fun _ _ => true
  GetMonitorContrast := fun _ => some (0, 30, 100)
  SetMonitorContrast := fun _ _ => true

/-- A stub transport in which every call fails. -/
def stubFail : Dxva2 where
  GetVCPFeatureAndVCPFeatureReply := fun _ _ => none
  SetVCPFeature := fun _ _ _ => false
  GetCapabilitiesStringLength := fun _ => none
  CapabilitiesRequestAndCapabilitiesReply := fun _ _ => none
  SaveCurrentMonitorSettings := fun _ => false
  RestoreMonitorFactoryDefaults := fun _ => false
  RestoreMonitorFactoryColorDefaults := fun _ => false
  GetMonitorBrightness := fun _ => none
  SetMonitorBrightness := fun _ _ => false
  GetMonitorContrast := fun _ => none
  SetMonitorContrast := fun _ _ => false

/-- `stubOk`, except that the second capability phase fails. -/
def stubFillFail : Dxva2 :=
  { stubOk with CapabilitiesRequestAndCapabilitiesReply := fun _ _ => none }

/-! ## C5, C9: get_feature semantics -/

/-- C5: whenever the single underlying query of `get_feature(code)`
succeeds, the returned kind is `SetParameter` exactly when the
transport's type discriminator is zero and `Momentary` otherwise, and the
current and maximum values are the transport's; when the query fails,
`get_feature` fails with `VcpNotSupported`. -/
theorem c5_get_feature_semantics (d : Dxva2) (m : VcpMonitor) (code : Nat) :
    (∀ ty cur mx, d.GetVCPFeatureAndVCPFeatureReply m.handle code = some (ty, cur, mx) →
      m.get_vcp_feature d code =
        .ok ⟨code, cur, mx, if ty = 0 then .SetParameter else .Momentary⟩) ∧
    (d.GetVCPFeatureAndVCPFeatureReply m.handle code = none →
      m.get_vcp_feature d code = .error .VcpNotSupported) := by
  constructor
  · intro ty cur mx h
    simp [VcpMonitor.get_vcp_feature, h]
  · intro h
    simp [VcpMonitor.get_vcp_feature, h]

/-- C5 witness: the spec's stub scenario — a transport reporting type=0,
current=50, maximum=100 for code 0x10 yields
`{code:0x10, current_value:50, maximum_value:100, code_type:SetParameter}`,
and a failing transport yields `VcpNotSupported`. -/
theorem c5_get_feature_semantics_witness :
    (VcpMonitor.mk 7).get_vcp_feature stubOk 0x10 =
      .ok ⟨0x10, 50, 100, .SetParameter⟩ ∧
    (VcpMonitor.mk 7).get_vcp_feature stubFail 0x10 = .error .VcpNotSupported := by
  refine ⟨?_, (c5_get_feature_semantics stubFail ⟨7⟩ 0x10).2 rfl⟩
  have h := (c5_get_feature_semantics stubOk ⟨7⟩ 0x10).1 0 50 100 rfl
  simpa using h

/-- Helper: a successful `get_vcp_feature` reply carries the queried
code in its `vcp_code` field. -/
theorem get_vcp_feature_ok_code (d : Dxva2) (m : VcpMonitor) (code : Nat)
    (r : VcpFeatureResponse) (h : m.get_vcp_feature d code = .ok r) :
    r.vcp_code = code := by
  unfold VcpMonitor.get_vcp_feature at h
  cases hq : d.GetVCPFeatureAndVCPFeatureReply m.handle code with
  | none => rw [hq] at h; cases h
  | some v =>
    obtain ⟨ty, cur, mx⟩ := v
    rw [hq] at h
    cases h
    rfl

/-- C9 (implicit): whenever `get_feature(code)` succeeds, the `vcp_code`
field of the returned value is the code that was passed in, echoed from
the argument and never taken from the transport reply. -/
theorem c9_code_echoed (d : Dxva2) (m : VcpMonitor) (code : Nat)
    (r : VcpFeatureResponse) (h : m.get_vcp_feature d code = .ok r) :
    r.vcp_code = code :=
  get_vcp_feature_ok_code d m code r h

/-- C9 witness: at the stub transport, the response to a query for code
0x37 carries `vcp_code = 0x37`. -/
theorem c9_code_echoed_witness :
    (VcpFeatureResponse.mk 0x37 50 100 .SetParameter).vcp_code = 0x37 :=
  c9_code_echoed stubOk ⟨7⟩ 0x37 _
    (by simp [VcpMonitor.get_vcp_feature, stubOk])

/-! ## C8: single-call operations surface failure as UnsupportedOperation -/

/-- A concrete monitor handle used by the witnesses. -/
def pmStub : PhysicalMonitor :=
  { handle := 7
    info := { device_name := "DISPLAY_1", friendly_name := "Monitor"
              instance_name := "", is_primary := true } }

/-- C8: every single-call transport failure other than a feature query —
set_feature, both capability phases, save_settings,
restore_factory_defaults, restore_factory_color_defaults, and the
brightness/contrast accessors — surfaces as `UnsupportedOperation`, and
on transport success each operation succeeds (unit for setters and the
parameterless calls, the reported triple for the two getters, a string
for capabilities). -/
theorem c8_single_call_ops (d : Dxva2) (vm : VcpMonitor) (pm : PhysicalMonitor)
    (code value level : Nat) :
    (d.SetVCPFeature vm.handle code value = false →
      vm.set_vcp_feature d code value =
        .error (.UnsupportedOperation "SetVCPFeature failed")) ∧
    (d.SetVCPFeature vm.handle code value = true →
      vm.set_vcp_feature d code value = .ok ()) ∧
    (d.GetCapabilitiesStringLength vm.handle = none →
      vm.get_capabilities d =
        .error (.UnsupportedOperation "GetCapabilitiesStringLength failed")) ∧
    (∀ len, d.GetCapabilitiesStringLength vm.handle = some len →
      d.CapabilitiesRequestAndCapabilitiesReply vm.handle len = none →
      vm.get_capabilities d =
        .error (.UnsupportedOperation "CapabilitiesRequestAndCapabilitiesReply failed")) ∧
    (∀ len buf, d.GetCapabilitiesStringLength vm.handle = some len →
      d.CapabilitiesRequestAndCapabilitiesReply vm.handle len = some buf →
      ∃ s, vm.get_capabilities d = .ok s) ∧
    (d.SaveCurrentMonitorSettings vm.handle = false →
      vm.save_settings d =
        .error (.UnsupportedOperation "SaveCurrentMonitorSettings failed")) ∧
    (d.SaveCurrentMonitorSettings vm.handle = true → vm.save_settings d = .ok ()) ∧
    (d.RestoreMonitorFactoryDefaults vm.handle = false →
      vm.restore_factory_defaults d =
        .error (.UnsupportedOperation "RestoreMonitorFactoryDefaults failed")) ∧
    (d.RestoreMonitorFactoryDefaults vm.handle = true →
      vm.restore_factory_defaults d = .ok ()) ∧
    (d.RestoreMonitorFactoryColorDefaults vm.handle = false →
      vm.restore_factory_color_defaults d =
        .error (.UnsupportedOperation "RestoreMonitorFactoryColorDefaults failed")) ∧
    (d.RestoreMonitorFactoryColorDefaults vm.handle = true →
      vm.restore_factory_color_defaults d = .ok ()) ∧
    (d.GetMonitorBrightness pm.handle = none →
      pm.get_brightness d =
        .error (.UnsupportedOperation "GetMonitorBrightness failed")) ∧
    (∀ mn cur mx, d.GetMonitorBrightness pm.handle = some (mn, cur, mx) →
      pm.get_brightness d = .ok ⟨mn, cur, mx⟩) ∧
    (d.SetMonitorBrightness pm.handle level = false →
      pm.set_brightness d level =
        .error (.UnsupportedOperation "SetMonitorBrightness failed")) ∧
    (d.SetMonitorBrightness pm.handle level = true →
      pm.set_brightness d level = .ok ()) ∧
    (d.GetMonitorContrast pm.handle = none →
      pm.get_contrast d =
        .error (.UnsupportedOperation "GetMonitorContrast failed")) ∧
    (∀ mn cur mx, d.GetMonitorContrast pm.handle = some (mn, cur, mx) →
      pm.get_contrast d = .ok ⟨mn, cur, mx⟩) ∧
    (d.SetMonitorContrast pm.handle level = false →
      pm.set_contrast d level =
        .error (.UnsupportedOperation "SetMonitorContrast failed")) ∧
    (d.SetMonitorContrast pm.handle level = true →
      pm.set_contrast d level = .ok ()) := by
  refine ⟨?_, ?_, ?_, ?_, ?_, ?_, ?_, ?_, ?_, ?_, ?_, ?_, ?_, ?_, ?_, ?_, ?_, ?_, ?_⟩ <;>
    intros <;>
    simp_all [VcpMonitor.set_vcp_feature, VcpMonitor.get_capabilities,
      VcpMonitor.save_settings, VcpMonitor.restore_factory_defaults,
      VcpMonitor.restore_factory_color_defaults, PhysicalMonitor.get_brightness,
      PhysicalMonitor.set_brightness, PhysicalMonitor.get_contrast,
      PhysicalMonitor.set_contrast]

/-- C8 witness: all nineteen cases at the all-fail and all-succeed stub
transports on concrete handles. -/
theorem c8_single_call_ops_witness :
    (VcpMonitor.mk 7).set_vcp_feature stubFail 0x10 42 =
      .error (.UnsupportedOperation "SetVCPFeature failed") ∧
    (VcpMonitor.mk 7).set_vcp_feature stubOk 0x10 42 = .ok () ∧
    (VcpMonitor.mk 7).get_capabilities stubFail =
      .error (.UnsupportedOperation "GetCapabilitiesStringLength failed") ∧
    (VcpMonitor.mk 7).get_capabilities stubFillFail =
      .error (.UnsupportedOperation "CapabilitiesRequestAndCapabilitiesReply failed") ∧
    (∃ s, (VcpMonitor.mk 7).get_capabilities stubOk = .ok s) ∧
    (VcpMonitor.mk 7).save_settings stubFail =
      .error (.UnsupportedOperation "SaveCurrentMonitorSettings failed") ∧
    (VcpMonitor.mk 7).save_settings stubOk = .ok () ∧
    (VcpMonitor.mk 7).restore_factory_defaults stubFail =
      .error (.UnsupportedOperation "RestoreMonitorFactoryDefaults failed") ∧
    (VcpMonitor.mk 7).restore_factory_defaults stubOk = .ok () ∧
    (VcpMonitor.mk 7).restore_factory_color_defaults stubFail =
      .error (.UnsupportedOperation "RestoreMonitorFactoryColorDefaults failed") ∧
    (VcpMonitor.mk 7).restore_factory_color_defaults stubOk = .ok () ∧
    pmStub.get_brightness stubFail =
      .error (.UnsupportedOperation "GetMonitorBrightness failed") ∧
    pmStub.get_brightness stubOk = .ok ⟨0, 30, 100⟩ ∧
    pmStub.set_brightness stubFail 30 =
      .error (.UnsupportedOperation "SetMonitorBrightness failed") ∧
    pmStub.set_brightness stubOk 30 = .ok () ∧
    pmStub.get_contrast stubFail =
      .error (.UnsupportedOperation "GetMonitorContrast failed") ∧
    pmStub.get_contrast stubOk = .ok ⟨0, 30, 100⟩ ∧
    pmStub.set_contrast stubFail 30 =
      .error (.UnsupportedOperation "SetMonitorContrast failed") ∧
    pmStub.set_contrast stubOk 30 = .ok () := by
  obtain ⟨f1, -, f3, f4, -, f6, -, f8, -, f10, -, f12, -, f14, -, f16, -, f18, -⟩ :=
    c8_single_call_ops stubFail ⟨7⟩ pmStub 0x10 42 30
  obtain ⟨-, t2, -, -, t5, -, t7, -, t9, -, t11, -, t13, -, t15, -, t17, -, t19⟩ :=
    c8_single_call_ops stubOk ⟨7⟩ pmStub 0x10 42 30
  obtain ⟨-, -, -, ff4, -, -, -, -, -, -, -, -, -, -, -, -, -, -, -⟩ :=
    c8_single_call_ops stubFillFail ⟨7⟩ pmStub 0x10 42 30
  exact ⟨f1 rfl, t2 rfl, f3 rfl, ff4 10 rfl rfl,
    t5 10 [65, 66, 67, 0, 0, 0, 0, 0, 0, 0] rfl rfl,
    f6 rfl, t7 rfl, f8 rfl, t9 rfl, f10 rfl, t11 rfl, f12 rfl,
    t13 0 30 100 rfl, f14 rfl, t15 rfl, f16 rfl, t17 0 30 100 rfl,
    f18 rfl, t19 rfl⟩

/-! ## C4: two-phase capabilities protocol -/

/-- Taking up to the first index satisfying `p` is taking while `p`
fails: the shape of the source's truncation at the first null byte. -/
theorem take_findIdx_eq_takeWhile (p : Nat → Bool) :
    ∀ l : List Nat, l.take ((l.findIdx? p).getD l.length) = l.takeWhile (fun x => !p x)
  | [] => rfl
  | x :: xs => by
    rw [List.findIdx?_cons]
    cases hp : p x with
    | true => simp [hp, List.takeWhile_cons, hp]
    | false =>
      cases hf : xs.findIdx? p with
      | none =>
        simp [hp, List.takeWhile_cons, hf]
        have := take_findIdx_eq_takeWhile p xs
        rw [hf] at this
        simpa using this
      | some i =>
        simp [hp, List.takeWhile_cons, hf]
        have := take_findIdx_eq_takeWhile p xs
        rw [hf] at this
        simpa using this

/-- C4: `get_capabilities` fails with `UnsupportedOperation` when the
length query fails, fails with `UnsupportedOperation` when the
buffer-fill call fails, and on success returns the buffer truncated at
its first null byte, decoded as UTF-8 with invalid sequences replaced;
in particular, for a transport reporting length 10 and filling bytes
`ABC` followed by seven nulls, the result equals `"ABC"`. -/
theorem c4_capabilities (d : Dxva2) (m : VcpMonitor) :
    (d.GetCapabilitiesStringLength m.handle = none →
      m.get_capabilities d =
        .error (.UnsupportedOperation "GetCapabilitiesStringLength failed")) ∧
    (∀ len, d.GetCapabilitiesStringLength m.handle = some len →
      d.CapabilitiesRequestAndCapabilitiesReply m.handle len = none →
      m.get_capabilities d =
        .error (.UnsupportedOperation "CapabilitiesRequestAndCapabilitiesReply failed")) ∧
    (∀ len buf, d.GetCapabilitiesStringLength m.handle = some len →
      d.CapabilitiesRequestAndCapabilitiesReply m.handle len = some buf →
      ∃ pre post, buf = pre ++ post ∧ 0 ∉ pre ∧
        (post = [] ∨ ∃ rest, post = 0 :: rest) ∧
        m.get_capabilities d = .ok (from_utf8_lossy pre)) ∧
    ((VcpMonitor.mk 7).get_capabilities stubOk = .ok "ABC") := by
  refine ⟨?_, ?_, ?_, by rfl⟩
  · intro h
    simp [VcpMonitor.get_capabilities, h]
  · intro len h1 h2
    simp [VcpMonitor.get_capabilities, h1, h2]
  · intro len buf h1 h2
    refine ⟨buf.takeWhile (fun b => !(b == 0)), buf.dropWhile (fun b => !(b == 0)),
      (List.takeWhile_append_dropWhile _ _).symm, ?_, ?_, ?_⟩
    · intro hmem
      have := List.mem_takeWhile_imp hmem
      simp at this
    · cases hd : buf.dropWhile (fun b => !(b == 0)) with
      | nil => exact Or.inl rfl
      | cons x rest =>
        refine Or.inr ⟨rest, ?_⟩
        have hh := List.head?_dropWhile_not (fun b => !(b == 0)) buf
        rw [hd] at hh
        simp at hh
        rw [hh]
    · simp [VcpMonitor.get_capabilities, h1, h2,
        take_findIdx_eq_takeWhile (fun b => b == 0) buf]

/-- C4 witness: all three hypotheses discharged at concrete stubs — the
two failure phases, the truncation decomposition for the stub buffer,
and the spec's concrete `"ABC"` outcome. -/
theorem c4_capabilities_witness :
    (VcpMonitor.mk 7).get_capabilities stubFail =
      .error (.UnsupportedOperation "GetCapabilitiesStringLength failed") ∧
    (VcpMonitor.mk 7).get_capabilities stubFillFail =
      .error (.UnsupportedOperation "CapabilitiesRequestAndCapabilitiesReply failed") ∧
    (∃ pre post, ([65, 66, 67, 0, 0, 0, 0, 0, 0, 0] : List Nat) = pre ++ post ∧
      0 ∉ pre ∧ (post = [] ∨ ∃ rest, post = 0 :: rest) ∧
      (VcpMonitor.mk 7).get_capabilities stubOk = .ok (from_utf8_lossy pre)) ∧
    ((VcpMonitor.mk 7).get_capabilities stubOk = .ok "ABC") :=
  ⟨(c4_capabilities stubFail ⟨7⟩).1 rfl,
   (c4_capabilities stubFillFail ⟨7⟩).2.1 10 rfl rfl,
   (c4_capabilities stubOk ⟨7⟩).2.2.1 10 [65, 66, 67, 0, 0, 0, 0, 0, 0, 0] rfl rfl,
   (c4_capabilities stubOk ⟨7⟩).2.2.2⟩

/-! ## C2: scan_all invariants -/

/-- The scan loop with any accumulator is the accumulator followed by
the successful replies, in code order. -/
theorem scan_foldl_eq (d : Dxva2) (m : VcpMonitor) :
    ∀ (l : List Nat) (acc : List VcpFeatureResponse),
      l.foldl
        (fun features code =>
          match m.get_vcp_feature d code with
          | .ok response => features ++ [response]
          | .error _ => features)
        acc
      = acc ++ l.filterMap (fun c => (m.get_vcp_feature d c).toOption)
  | [], acc => by simp
  | c :: cs, acc => by
    simp only [List.foldl_cons]
    rw [scan_foldl_eq d m cs]
    cases h : m.get_vcp_feature d c with
    | ok r => simp [h, List.filterMap_cons, Except.toOption]
    | error e => simp [h, List.filterMap_cons, Except.toOption]

/-- `scan_vcp_features` collects exactly the successful replies for the
codes 0..255 in order. -/
theorem scan_eq_filterMap (d : Dxva2) (m : VcpMonitor) :
    m.scan_vcp_features d
      = (List.range 256).filterMap (fun c => (m.get_vcp_feature d c).toOption) := by
  unfold VcpMonitor.scan_vcp_features
  rw [scan_foldl_eq d m (List.range 256) []]
  simp

/-- The code fields of the collected replies are the codes whose query
succeeded, in order. -/
theorem scan_codes_eq_filter (d : Dxva2) (m : VcpMonitor) :
    ∀ l : List Nat,
      ((l.filterMap fun c => (m.get_vcp_feature d c).toOption).map
          (fun r => r.vcp_code))
        = l.filter (fun c => (m.get_vcp_feature d c).isOk)
  | [] => rfl
  | c :: cs => by
    have ih := scan_codes_eq_filter d m cs
    cases h : m.get_vcp_feature d c with
    | ok r =>
      have hc : r.vcp_code = c := get_vcp_feature_ok_code d m c r h
      have hf : (m.get_vcp_feature d c).toOption = some r := by rw [h]; rfl
      have hp : (m.get_vcp_feature d c).isOk = true := by rw [h]; rfl
      simp only [List.filterMap_cons, List.filter_cons, hf, hp, if_true,
        List.map_cons, hc, ih]
    | error e =>
      have hf : (m.get_vcp_feature d c).toOption = none := by rw [h]; rfl
      have hp : (m.get_vcp_feature d c).isOk = false := by rw [h]; rfl
      simp only [List.filterMap_cons, List.filter_cons, hf, hp,
        Bool.false_eq_true, if_false, ih]

/-- C2: for every monitor handle and transport behaviour, `scan_all()`
returns codes in strictly ascending order with no duplicates, at most
256 entries, and a code appears in the result exactly when the single
`get_feature` call for that code succeeded. -/
theorem c2_scan_invariants (d : Dxva2) (m : VcpMonitor) :
    ((m.scan_vcp_features d).map (fun r => r.vcp_code)).Pairwise (· < ·) ∧
    ((m.scan_vcp_features d).map (fun r => r.vcp_code)).Nodup ∧
    (m.scan_vcp_features d).length ≤ 256 ∧
    (∀ c, c ∈ (m.scan_vcp_features d).map (fun r => r.vcp_code) ↔
      c < 256 ∧ (m.get_vcp_feature d c).isOk) := by
  have hcodes : (m.scan_vcp_features d).map (fun r => r.vcp_code)
      = (List.range 256).filter (fun c => (m.get_vcp_feature d c).isOk) := by
    rw [scan_eq_filterMap, scan_codes_eq_filter]
  have hpair : ((m.scan_vcp_features d).map (fun r => r.vcp_code)).Pairwise (· < ·) := by
    rw [hcodes]
    exact (List.pairwise_lt_range 256).sublist (List.filter_sublist _)
  refine ⟨hpair, hpair.imp Nat.ne_of_lt, ?_, ?_⟩
  · rw [scan_eq_filterMap]
    calc ((List.range 256).filterMap
          (fun c => (m.get_vcp_feature d c).toOption)).length
        ≤ (List.range 256).length := List.length_filterMap_le _ _
      _ = 256 := by simp
  · intro c
    rw [hcodes]
    simp [List.mem_filter, List.mem_range]

/-! ## C3: registry lookup -/

/-- C3 counterexample: the vendor-reserved code 0xFF is present in the
catalog — `lookup(0xFF)` returns the catalog's own explicitly
manufacturer-specific entry, not none. -/
theorem c3_lookup_counterexample :
    get_vcp_code_info 0xFF =
      some ⟨0xFF, "OEM specific", "Manufacturer-specific VCP code"⟩ := by rfl

/-- Boolean check that a list of naturals is strictly ascending. -/
def strictAscending : List Nat → Bool
  | [] => true
  | [_] => true
  | a :: b :: rest => a < b && strictAscending (b :: rest)

/-- A strictly ascending list is a chain under `<`. -/
theorem strictAscending_chain' : ∀ l : List Nat,
    strictAscending l = true → l.Chain' (· < ·)
  | [], _ => List.chain'_nil
  | [a], _ => by simp
  | a :: b :: rest, h => by
    rw [strictAscending, Bool.and_eq_true, decide_eq_true_eq] at h
    exact List.chain'_cons.2 ⟨h.1, strictAscending_chain' (b :: rest) h.2⟩

/-- C3 as amended: for all codes, `lookup(code)` returns a descriptor
exactly when the code is one of the 184 catalog codes, the returned
descriptor is the single entry carrying that code (the catalog's codes
are strictly ascending, hence duplicate-free, and lookup is a pure
function of the code), and the catalog includes the manufacturer-reserved
region 0xE0-0xFF as explicit OEM-specific entries, so lookup returns a
descriptor — not none — for those codes. -/
theorem c3_lookup_amended :
    (∀ c, (get_vcp_code_info c).isSome ↔
      c ∈ KNOWN_VCP_CODES.map (fun i => i.code)) ∧
    (∀ c i, get_vcp_code_info c = some i → i.code = c) ∧
    (KNOWN_VCP_CODES.map (fun i => i.code)).Pairwise (· < ·) ∧
    KNOWN_VCP_CODES.length = 184 ∧
    (∀ c, 0xE0 ≤ c → c < 256 → (get_vcp_code_info c).isSome) := by
  have h5 : ∀ c ∈ List.range' 0xE0 0x20, (get_vcp_code_info c).isSome := by decide
  refine ⟨?_, ?_, ?_, by rfl, ?_⟩
  · intro c
    simp [get_vcp_code_info, List.find?_isSome, List.mem_map, beq_iff_eq]
  · intro c i h
    have := List.find?_some h
    simpa [beq_iff_eq] using this
  · exact List.chain'_iff_pairwise.1 (strictAscending_chain' _ (by decide))
  · intro c h1 h2
    exact h5 c (by rw [List.mem_range'_1]; omega)

/-- C3 witness: lookup at 0x10 returns the Luminance entry whose code
echoes 0x10, and lookup inside the manufacturer-reserved region (0xEE)
returns a descriptor. -/
theorem c3_lookup_amended_witness :
    (VcpFeatureInfo.mk 0x10 "Luminance"
        "Luminance of the image (Brightness control).").code = 0x10 ∧
    (get_vcp_code_info 0xEE).isSome := by
  refine ⟨c3_lookup_amended.2.1 0x10 _ (by rfl), c3_lookup_amended.2.2.2.2 0xEE (by decide) (by decide)⟩

/-! ## C1, C6: enumeration -/

/-- A topology in which the OS reports zero outputs. -/
def emptyNative : Native :=
  { osOutputs := []
    get_physical_monitors := fun _ => .ok []
    get_monitor_info := fun _ => .ok 0 }

/-- C1: when the OS reports zero display outputs, `enumerate()` fails
with `MonitorNotFound` (and logs nothing); it does not return an empty
collection of handles. -/
theorem c1_zero_outputs (n : Native) (h : n.osOutputs = []) :
    ∃ id, enumerate_monitors n = (.error (.MonitorNotFound id), []) := by
  refine ⟨"No monitors found", ?_⟩
  simp [enumerate_monitors, MonitorEnumerator.enumerate, h]

/-- C1 witness: the zero-output topology. -/
theorem c1_zero_outputs_witness :
    ∃ id, enumerate_monitors emptyNative = (.error (.MonitorNotFound id), []) :=
  c1_zero_outputs emptyNative rfl

/-- The spec's enumeration scenario: two outputs with one endpoint each;
display metadata (and hence endpoint construction) fails for output 2. -/
def scenarioNative : Native :=
  { osOutputs := [1, 2]
    get_physical_monitors := fun h => .ok [⟨h * 100, "Monitor"⟩]
    get_monitor_info := fun h =>
      if h = 1 then .ok 1
      else .error (.UnsupportedOperation "GetMonitorInfoW failed") }

/-- The enumeration loop returns an `ok` result whenever every output's
endpoint query succeeds, whatever the per-endpoint constructions do. -/
theorem enumLoop_ok (n : Native) :
    ∀ (outs : List Int) (acc : List PhysicalMonitor) (ws : List MonitorError),
      (∀ h ∈ outs, (n.get_physical_monitors h).isOk = true) →
      ∃ ms ws2, enumLoop n outs acc ws = (.ok ms, ws2)
  | [], acc, ws, _ => ⟨acc, ws, rfl⟩
  | h :: rest, acc, ws, hall => by
    have h1 : (n.get_physical_monitors h).isOk = true := hall h (by simp)
    cases hp : n.get_physical_monitors h with
    | error e => rw [hp] at h1; cases h1
    | ok pms =>
      have ih := enumLoop_ok n rest
        (enumOutput n h (acc, ws) pms).1 (enumOutput n h (acc, ws) pms).2
        (fun x hx => hall x (by simp [hx]))
      simpa [enumLoop, hp] using ih

/-- C6: endpoint construction failures are non-fatal — enumeration
returns `ok` whenever the topology is non-empty and every output's
endpoint query succeeds, whatever the constructions do; and in the
spec's scenario (2 outputs of 1 endpoint each, construction failing for
output 2) it returns exactly 1 handle and logs exactly 1 warning. -/
theorem c6_construction_failure_nonfatal :
    (∀ n : Native, n.osOutputs ≠ [] →
      (∀ h ∈ n.osOutputs, (n.get_physical_monitors h).isOk = true) →
      ∃ ms ws, enumerate_monitors n = (.ok ms, ws)) ∧
    (enumerate_monitors scenarioNative).1 =
      .ok [⟨100, ⟨"DISPLAY_1", "Monitor", "", true⟩⟩] ∧
    (enumerate_monitors scenarioNative).2.length = 1 := by
  refine ⟨?_, by rfl, by rfl⟩
  intro n hne hall
  cases ho : n.osOutputs with
  | nil => exact absurd ho hne
  | cons o os =>
    have := enumLoop_ok n (o :: os) [] [] (by rw [← ho]; exact hall)
    simpa [enumerate_monitors, MonitorEnumerator.enumerate, ho] using this

/-- C6 witness: the scenario topology is non-empty with all endpoint
queries succeeding, so enumeration succeeds there. -/
theorem c6_construction_failure_nonfatal_witness :
    ∃ ms ws, enumerate_monitors scenarioNative = (.ok ms, ws) :=
  c6_construction_failure_nonfatal.1 scenarioNative (by decide)
    (fun h _ => rfl)

/-! ## C7: find_by_name -/

/-- C7: `find_by_name` returns the first enumerated handle whose device
identifier or friendly name exactly equals the argument, and fails with
`MonitorNotFound` carrying that name when no handle matches. -/
theorem c7_find_by_name (n : Native) (name : String) :
    (∀ ms, (enumerate_monitors n).1 = .ok ms →
      (∀ m ∈ ms, m.info.device_name ≠ name ∧ m.info.friendly_name ≠ name) →
      find_monitor n name = .error (.MonitorNotFound name)) ∧
    (∀ ms pre mon post, (enumerate_monitors n).1 = .ok ms →
      ms = pre ++ mon :: post →
      (∀ m ∈ pre, m.info.device_name ≠ name ∧ m.info.friendly_name ≠ name) →
      (mon.info.device_name = name ∨ mon.info.friendly_name = name) →
      find_monitor n name = .ok mon) := by
  constructor
  · intro ms henum hne
    have hfind : ms.find?
        (fun m => m.info.device_name == name || m.info.friendly_name == name)
        = none := by
      rw [List.find?_eq_none]
      intro x hx
      have hx2 := hne x hx
      simp [hx2.1, hx2.2]
    simp [find_monitor, henum, hfind]
  · intro ms pre mon post henum hsplit hpre hmon
    have hfindpre : pre.find?
        (fun m => m.info.device_name == name || m.info.friendly_name == name)
        = none := by
      rw [List.find?_eq_none]
      intro x hx
      have hx2 := hpre x hx
      simp [hx2.1, hx2.2]
    have hpmon : (mon.info.device_name == name || mon.info.friendly_name == name)
        = true := by
      cases hmon with
      | inl h => simp [h]
      | inr h => simp [h]
    have hcons : (mon :: post).find?
        (fun m => m.info.device_name == name || m.info.friendly_name == name)
        = some mon := by
      rw [List.find?_cons_of_pos]
      exact hpmon
    simp [find_monitor, henum, hsplit, List.find?_append, hfindpre, hcons]

/-- C7 witness: in the scenario topology (one surviving handle, named
neither by device identifier nor friendly name "nonexistent"),
`find_by_name("nonexistent")` fails with `MonitorNotFound("nonexistent")`. -/
theorem c7_find_by_name_witness :
    find_monitor scenarioNative "nonexistent" =
      .error (.MonitorNotFound "nonexistent") :=
  (c7_find_by_name scenarioNative "nonexistent").1
    [⟨100, ⟨"DISPLAY_1", "Monitor", "", true⟩⟩] (by rfl) (by decide)

/-! ## C10: no protocol operation mutates the handle object -/

/-- C10 (implicit): no protocol operation mutates the monitor object's
observable state — after any sequence of get/set feature, scan,
capabilities, save, restore, or brightness/contrast calls (succeeding or
failing), the handle value and the descriptive metadata are unchanged
from construction. -/
theorem c10_no_mutation (d : Dxva2) (ops : List ProtocolOp) (m : PhysicalMonitor) :
    runOps d ops m = m ∧
    (runOps d ops m).handle = m.handle ∧
    (runOps d ops m).info = m.info := by
  have hop : ∀ (m2 : PhysicalMonitor) (op : ProtocolOp), runOp d m2 op = m2 := by
    intro m2 op
    cases op <;> rfl
  have hrun : runOps d ops m = m := by
    induction ops with
    | nil => rfl
    | cons op rest ih =>
      rw [runOps, List.foldl_cons, hop]
      exact ih
  exact ⟨hrun, by rw [hrun], by rw [hrun]⟩
